import Mathlib

/-!
Shallow embedding of the httpc request-building / dispatch / response-resolution
pipeline (github.com/unvurn/httpc) in Lean 4, together with theorems settling the
frozen claims about it.

The repository ships several historical variants of the same component; the
embedding names each definition after the source function it translates and the
doc comment records the file (and variant) it comes from:
  - src/unnamed/part_007: the decoder-registry variant of Request[T]
    (Query, TryGet, TryPostForm, TryDoFunc, loadURL, build, do,
    handleResponse, handleErrorResponse, contentType)
  - src/response.go: HttpResult[T] and HttpResult.As
  - src/errors.go: Error.ResponseBody, in a non-caching variant (lines 24-31)
    and a caching variant (lines 89-100); newError(response, body) (lines 49-51)
  - src/unnamed/part_000: form.MultipartFormData.AttachTo and form.File
  - src/unnamed/part_006: the responder variant whose Post sets Content-Length
    (lines 181-188)

Go-specific conventions used throughout:
  - a Go value of type error is modelled as Option Err (none = nil error);
  - a Go (value, error) pair where the error aborts the caller is modelled
    as Except Err;
  - Go byte slices are modelled as List Nat (byte values; no arithmetic is
    performed on them);
  - url.Values and http.Header (map[string][]string) are modelled as an
    association list with unique keys, List (String × List String);
  - a Go runtime panic is modelled by an explicit GoPanic outcome.
-/

/-- Errors of the library, plus opaque collaborator errors.
The structured variant embeds httpc.Error (src/errors.go lines 43-51:
a response pointer, of which only the status code is observable here, and
the raw body bytes); the sentinel variants embed the package-level sentinel
errors of src/unnamed/part_004 lines 9-10 and src/errors.go lines 39-41;
bodyClosed stands for the error the net/http body reader yields once the
body has been closed; custom stands for arbitrary collaborator errors. -/
inductive Err : Type
  | noAvailableEncoder : Err
  | noAvailableDecoder : Err
  | unexpectedType : Err
  | structured (status : Nat) (body : List Nat) : Err
  | bodyClosed : Err
  | custom (n : Nat) : Err
deriving DecidableEq, Repr

/-- A Go runtime panic, distinguished from error values. -/
inductive GoPanic : Type
  | nilMapAssign : GoPanic
deriving DecidableEq, Repr

/-- Response body bytes. -/
abbrev Bytes := List Nat

/-- Embedding of Go's map[string][]string (url.Values and http.Header): an
association list whose keys are unique by construction of the operations. -/
abbrev Values := List (String × List String)

/-- Embeds url.Values.Add (net/url): appends the value to the slice held
under the key, inserting the key if absent. -/
def Values.add (vs : Values) (k v : String) : Values :=
  match vs with
  | [] => [(k, [v])]
  | (k₀, l) :: rest =>
    if k₀ = k then (k₀, l ++ [v]) :: rest else (k₀, l) :: Values.add rest k v

/-- Embeds url.Values.Set and http.Header.Set: replaces the slice held under
the key by the one-element slice of the value. -/
def Values.set (vs : Values) (k v : String) : Values :=
  match vs with
  | [] => [(k, [v])]
  | (k₀, l) :: rest =>
    if k₀ = k then (k₀, [v]) :: rest else (k₀, l) :: Values.set rest k v

/-- Map lookup: the slice held under a key, if present. -/
def Values.get? (vs : Values) (k : String) : Option (List String) :=
  match vs with
  | [] => none
  | (k₀, l) :: rest => if k₀ = k then some l else Values.get? rest k

/-- All (key, value) entries of the map, one entry per held value, in held
order within each key. -/
def Values.entries (vs : Values) : List (String × String) :=
  vs.flatMap fun kl => kl.2.map fun v => (kl.1, v)

/-- Whether a character survives Go's url.QueryEscape unescaped:
alphanumerics and the four unreserved marks. -/
def queryUnescapedChar (c : Char) : Bool :=
  c.isAlphanum || c = '-' || c = '_' || c = '.' || c = '~'

/-- Upper-case hexadecimal digit of a value below 16, as in Go's url escaping. -/
def hexDigitChar (n : Nat) : Char :=
  if n < 10 then Char.ofNat (48 + n) else Char.ofNat (55 + n)

/-- UTF-8 encoding of one character as its byte values (the bytes Go
percent-escapes one by one). -/
def utf8Bytes (c : Char) : List Nat :=
  let n := c.toNat
  if n < 0x80 then [n]
  else if n < 0x800 then [0xC0 + n / 0x40, 0x80 + n % 0x40]
  else if n < 0x10000 then
    [0xE0 + n / 0x1000, 0x80 + (n / 0x40) % 0x40, 0x80 + n % 0x40]
  else
    [0xF0 + n / 0x40000, 0x80 + (n / 0x1000) % 0x40, 0x80 + (n / 0x40) % 0x40,
      0x80 + n % 0x40]

/-- Embeds Go's url.QueryEscape on one character: unreserved characters pass
through, space becomes a plus sign, anything else is percent-encoded byte by
byte. -/
def queryEscapeChar (c : Char) : String :=
  if queryUnescapedChar c then String.singleton c
  else if c = ' ' then "+"
  else String.join ((utf8Bytes c).map fun b =>
    ⟨['%', hexDigitChar (b / 16), hexDigitChar (b % 16)]⟩)

/-- Embeds Go's url.QueryEscape. -/
def queryEscape (s : String) : String :=
  String.join (s.data.map queryEscapeChar)

/-- Insertion into a key-sorted association list, keeping key order. -/
def insertSorted (x : String × List String) : Values → Values
  | [] => [x]
  | y :: ys => if x.1 ≤ y.1 then x :: y :: ys else y :: insertSorted x ys

/-- The association list sorted by key (url.Values.Encode sorts the map keys
before serializing). -/
def sortByKey : Values → Values
  | [] => []
  | x :: xs => insertSorted x (sortByKey xs)

/-- The (key, value) pairs in the order url.Values.Encode serializes them:
keys sorted, then each value of a key in slice order. url.Values.Encode
writes exactly one escaped key=value component per such pair, separated by
ampersands. -/
def Values.encodePairs (vs : Values) : List (String × String) :=
  (sortByKey vs).flatMap fun kl => kl.2.map fun v => (kl.1, v)

/-- Embeds url.Values.Encode: one QueryEscaped key=value component per
encodePairs pair, joined by ampersands. -/
def Values.encodeString (vs : Values) : String :=
  String.intercalate "&"
    ((Values.encodePairs vs).map fun p => queryEscape p.1 ++ "=" ++ queryEscape p.2)

/-- ASCII whitespace as Go's strings.TrimSpace strips it from header
values (header values do not carry the exotic Unicode space classes). -/
def isSpaceChar (c : Char) : Bool :=
  c = ' ' || c = '\t' || c = '\n' || c = '\r'

/-- Leading and trailing whitespace removed from a character list. -/
def trimChars (l : List Char) : List Char :=
  ((l.dropWhile isSpaceChar).reverse.dropWhile isSpaceChar).reverse

/-- The prefix of a character list before its first semicolon: the first
component of strings.Split on a semicolon separator. -/
def takeUntilSemi (l : List Char) : List Char :=
  match l with
  | [] => []
  | c :: rest => if c = ';' then [] else c :: takeUntilSemi rest

/-- Embeds contentType (src/unnamed/part_007 lines 380-385): the header value
trimmed of surrounding whitespace and truncated at the first semicolon; the
empty header maps to the empty token. -/
def contentType (value : String) : String :=
  if value = "" then "" else ⟨takeUntilSemi (trimChars value.data)⟩

/-- The observable part of an http.Response after the dispatcher has buffered
the body: status code, Content-Type header value, and the buffered body
bytes. -/
structure Response where
  statusCode : Nat
  contentTypeHeader : String
  body : Bytes
deriving DecidableEq, Repr

/-- DecoderFunc[T] (src/unnamed/part_007 line 17): bytes to a typed value or
an error. -/
abbrev DecoderFunc (T : Type) := Bytes → Except Err T

/-- ErrorHandlerFunc (src/unnamed/part_007 line 18): a Go function returning
error; none models a nil error return. -/
abbrev ErrorHandlerFunc := Response → Bytes → Option Err

/-- The decoder registry of Request[T] (the decoders map of
src/unnamed/part_007). -/
abbrev DecoderRegistry (T : Type) := List (String × DecoderFunc T)

/-- The error-handler registry of Request[T] (the errorHandlers map of
src/unnamed/part_007). -/
abbrev HandlerRegistry := List (String × ErrorHandlerFunc)

/-- Registry lookup (Go map indexing, returning the zero value none when the
key is absent). -/
def regGet? {A : Type} (reg : List (String × A)) (k : String) : Option A :=
  match reg with
  | [] => none
  | (k₀, a) :: rest => if k₀ = k then some a else regGet? rest k

/-- Embeds newError (src/errors.go lines 49-51, the two-argument variant that
type-checks as the defaultErrorHandler of src/unnamed/part_007 line 32): a
structured error holding the response and the raw body bytes. It is never
nil. -/
def newError (res : Response) (body : Bytes) : Err :=
  .structured res.statusCode body

/-- HttpResult[T] (src/response.go lines 7-20): the completed response, the
buffered body bytes, and the decoder selected for the response's content type
(none when no decoder was registered). -/
structure HttpResult (T : Type) where
  response : Response
  bytes : Bytes
  decoder : Option (DecoderFunc T)

/-- The dynamic type of the pointer handed to HttpResult.As: a byte-slice
pointer, a pointer to the result type T, or anything else. -/
inductive AsTarget : Type
  | bytesPtr : AsTarget
  | typedPtr : AsTarget
  | otherPtr : AsTarget
deriving DecidableEq, Repr

/-- What HttpResult.As writes through the pointer on success. -/
inductive AsOut (T : Type) : Type
  | bytes (b : Bytes) : AsOut T
  | typed (t : T) : AsOut T
deriving DecidableEq

/-- Embeds HttpResult.As (src/response.go lines 22-40). The Go type switch
checks the byte-slice-pointer case first, so that case returns the raw bytes
and nil error without consulting the decoder; the typed case returns the
sentinel when no decoder is registered, otherwise the decoder's output on the
buffered bytes; any other pointer type yields the unexpected-type
sentinel. -/
def HttpResult.as {T : Type} (r : HttpResult T) : AsTarget → Except Err (AsOut T)
  | .bytesPtr => .ok (.bytes r.bytes)
  | .typedPtr =>
    match r.decoder with
    | none => .error .noAvailableDecoder
    | some d => (d r.bytes).map .typed
  | .otherPtr => .error .unexpectedType

/-- Embeds Request.handleResponse (src/unnamed/part_007 lines 363-368): build
the result handle around the buffered bytes and the decoder registered under
the response's content-type token. -/
def handleResponse {T : Type} (decoders : DecoderRegistry T) (res : Response)
    (b : Bytes) : HttpResult T :=
  { response := res, bytes := b,
    decoder := regGet? decoders (contentType res.contentTypeHeader) }

/-- Embeds Request.handleErrorResponse (src/unnamed/part_007 lines 370-378):
the handler registered under the content-type token, or the default handler
newError when none is registered, applied to (response, body). -/
def handleErrorResponse (handlers : HandlerRegistry) (res : Response)
    (b : Bytes) : Option Err :=
  match regGet? handlers (contentType res.contentTypeHeader) with
  | some h => h res b
  | none => some (newError res b)

/-- Embeds the response-classification tail of Request.do
(src/unnamed/part_007 lines 356-361), after the transport call succeeded and
the body was buffered: a non-200 status returns (nil, handleErrorResponse),
a 200 status returns (handleResponse, nil). The pair mirrors Go's
(Result, error) return. -/
def doRespond {T : Type} (decoders : DecoderRegistry T)
    (handlers : HandlerRegistry) (res : Response) :
    Option (HttpResult T) × Option Err :=
  if res.statusCode ≠ 200 then
    (none, handleErrorResponse handlers res res.body)
  else
    (some (handleResponse decoders res res.body), none)

/-- Outcome of the typed verb wrapper Request.Get / Request.Post: a typed
value with nil error, a non-nil error, or a Go runtime panic. -/
inductive GetOutcome (T : Type) : Type
  | ok (t : T) : GetOutcome T
  | errored (e : Err) : GetOutcome T
  | panicked : GetOutcome T
deriving DecidableEq, Repr

/-- Embeds Request.Get resolution (src/unnamed/part_007 lines 147-157) on a
received response: the dispatch tail doRespond runs first; a non-nil error is
returned with the zero value; otherwise As is applied to the typed target
pointer. When doRespond returns a nil result together with a nil error
(a registered error handler returned nil), the call of As on the nil Result
interface is a runtime panic. The typed As target never yields a raw-bytes
output, so that branch is unreachable. -/
def getResolve {T : Type} (decoders : DecoderRegistry T)
    (handlers : HandlerRegistry) (res : Response) : GetOutcome T :=
  match doRespond decoders handlers res with
  | (_, some e) => .errored e
  | (some result, none) =>
    match result.as .typedPtr with
    | .ok (.typed t) => .ok t
    | .ok (.bytes _) => .panicked
    | .error e => .errored e
  | (none, none) => .panicked

/-- The mutable state of Request[T] (src/unnamed/part_007 lines 39-59) that
the claims observe. The values field is an Option because the Go field is a
nil map until a one-argument Query succeeds or loadURL runs. -/
structure Request007 (T : Type) where
  method : String
  values : Option Values
  headers : Values
  decoders : DecoderRegistry T
  errorHandlers : HandlerRegistry
  keepAlive : Bool

/-- Embeds NewRequestFunc (src/unnamed/part_007 lines 27-34): headers,
decoders and errorHandlers are initialised to empty maps, every other field
keeps its Go zero value; in particular the values map is nil. -/
def newRequestFunc007 (T : Type) : Request007 T :=
  { method := "", values := none, headers := [], decoders := [],
    errorHandlers := [], keepAlive := false }

/-- Embeds the one-argument branch of Request.Query (src/unnamed/part_007
lines 129-134). The argument is the outcome of the schema parameter encoder
on the caller's struct; on success the values map is replaced, and on failure
the error is discarded and the state left unchanged (the source guards the
assignment with err == nil and ignores err otherwise). -/
def query1 {T : Type} (r : Request007 T) (enc : Except Err Values) :
    Request007 T :=
  match enc with
  | .ok v => { r with values := some v }
  | .error _ => r

/-- Embeds the two-argument branch of Request.Query (src/unnamed/part_007
lines 135-139): r.values.Set(key, value). Go's url.Values.Set assigns to the
map entry, which panics when the map is nil. -/
def querySet (values : Option Values) (k v : String) :
    Except GoPanic (Option Values) :=
  match values with
  | none => .error .nilMapAssign
  | some vs => .ok (some (vs.set k v))

/-- Embeds Request.loadURL (src/unnamed/part_007 lines 293-309) after the URL
string has been parsed: urlQuery is the (key, value) pair list the parsed
URL's query string yields, in order. A nil values map is replaced by an empty
one, then every URL pair is Added (appended) to it. -/
def loadURL (values : Option Values) (urlQuery : List (String × String)) :
    Values :=
  urlQuery.foldl (fun vs kv => vs.add kv.1 kv.2) (values.getD [])

/-- The query pairs Request.build (src/unnamed/part_007 lines 318-333)
serializes onto the URL: build sets the URL's RawQuery to values.Encode() for
the values loadURL produced. -/
def buildRawQueryPairs (values : Option Values)
    (urlQuery : List (String × String)) : List (String × String) :=
  Values.encodePairs (loadURL values urlQuery)

/-- One multipart attachment as Request.TryPostForm consumes it: an identity
and the outcome of its AttachTo call (none = the write succeeds, some e = the
write fails with e). -/
structure Attachment007 where
  id : Nat
  fail : Option Err
deriving DecidableEq, Repr

/-- Observable state of the multipart writer and its backing buffer: form
fields written, attachments written (by id), and whether Close has written
the trailing boundary. -/
structure MPState where
  fields : List (String × String)
  parts : List Nat
  closed : Bool
deriving DecidableEq, Repr

/-- Embeds the attachment loop of Request.TryPostForm (src/unnamed/part_007
lines 233-237): attachments are written in order; the first failing AttachTo
aborts the loop and its error is returned; nothing after it runs. -/
def writeAttachments (st : MPState) : List Attachment007 → MPState × Option Err
  | [] => (st, none)
  | a :: rest =>
    match a.fail with
    | some e => (st, some e)
    | none => writeAttachments { st with parts := st.parts ++ [a.id] } rest

/-- A request body as the claims observe it: a url-encoded form string or a
finished multipart buffer. -/
inductive Body : Type
  | str (s : String) : Body
  | multipart (st : MPState) : Body
deriving DecidableEq, Repr

/-- The transport-level request data the builder hands to http.NewRequest:
final headers and body. -/
structure Built where
  headers : Values
  body : Option Body
deriving DecidableEq, Repr

/-- Embeds how the dispatched request's wire Content-Length arises for a
url-encoded form body. build passes the form string to
http.NewRequestWithContext as a *strings.Reader, and NewRequestWithContext
sets req.ContentLength to that reader's exact byte length; the transport
then emits the wire Content-Length header from this field, while a
Content-Length entry in the Header map is excluded from the wire by
net/http (reqWriteExcludeHeader). A nil body carries no wire Content-Length
(none). A multipart body is a *bytes.Buffer whose byte length Go also takes,
but MPState does not track buffer byte counts, so this embedding reports
none for it as untracked; no claim consults the multipart case. -/
def strBodyWireContentLength (b : Built) : Option Nat :=
  match b.body with
  | some (.str s) => some s.utf8ByteSize
  | _ => none

/-- Embeds the header/body logic of Request.TryDoFunc (src/unnamed/part_007
lines 250-276) and of the identical Request.DoFunc (src/unnamed/part_006
lines 218-246), up to the transport call: the payload function's error is
returned as-is; a non-GET method Sets Cache-Control no-cache; when the
content type is nonempty and the payload body non-nil, Content-Type is Set
and the request body replaced, otherwise the previously stored body is
kept. -/
def doFuncCore (headers : Values) (rbody : Option Body) (method ct : String)
    (payload : Except Err (Option Body)) : Except Err Built :=
  match payload with
  | .error e => .error e
  | .ok pb =>
    let h1 := if method = "GET" then headers else
      headers.set "Cache-Control" "no-cache"
    match pb with
    | some b =>
      if ct ≠ "" then .ok ⟨h1.set "Content-Type" ct, some b⟩
      else .ok ⟨h1, rbody⟩
    | none => .ok ⟨h1, rbody⟩

/-- The boundary-bearing content type mw.FormDataContentType() reports; the
boundary is random in Go and opaque to every claim. -/
def formDataContentType : String :=
  "multipart/form-data; boundary=1879bc designedboundary"

/-- Embeds Request.TryPostForm (src/unnamed/part_007 lines 210-247). The enc
argument is the outcome of the schema encoder on params; its error aborts the
call. With no attachments the encoded form string becomes the body under
content type application/x-www-form-urlencoded (note: no Content-Length
header is set on this path). With attachments, every encoded field is
written, then the attachments in order (first failure aborts and is returned
unchanged), then the writer is closed; writing fields and closing target an
in-memory buffer and cannot fail. The MPState component reports the final
multipart writer state, also when the call aborts. -/
def tryPostForm007 (headers : Values) (enc : Except Err Values)
    (atts : List Attachment007) : MPState × Except Err Built :=
  match enc with
  | .error e => (⟨[], [], false⟩, .error e)
  | .ok v =>
    if atts.isEmpty then
      let ve := Values.encodeString v
      (⟨[], [], false⟩,
        doFuncCore headers none "POST" "application/x-www-form-urlencoded"
          (.ok (some (.str ve))))
    else
      let st0 : MPState := ⟨Values.entries v, [], false⟩
      match writeAttachments st0 atts with
      | (st, some e) => (st, .error e)
      | (st, none) =>
        let st1 := { st with closed := true }
        (st1, doFuncCore headers none "POST" formDataContentType
          (.ok (some (.multipart st1))))

/-- Embeds the attachment-free branch of Request.Post (src/unnamed/part_006
lines 173-188) followed by DoFunc: the encoder error aborts; otherwise the
form string is encoded, a Content-Length header equal to the byte length of
the encoded string is Set, the body is stored, and DoFunc Sets Cache-Control
and Content-Type application/x-www-form-urlencoded around the same body. -/
def post006NoAttach (headers : Values) (enc : Except Err Values) :
    Except Err Built :=
  match enc with
  | .error e => .error e
  | .ok v =>
    let ve := Values.encodeString v
    let h := headers.set "Content-Length" (toString ve.utf8ByteSize)
    doFuncCore h (some (.str ve)) "POST" "application/x-www-form-urlencoded"
      (.ok (some (.str ve)))

/-- Embeds Request.TryGet (src/unnamed/part_007 lines 160-167) on a received
response: when params are supplied the payload function calls Query, whose
one-argument form discards the encoder outcome's error; the payload function
itself always returns (nil, nil), so dispatch proceeds regardless and the
call's outcome is the dispatch tail's outcome. -/
def tryGet007 {T : Type} (r : Request007 T) (enc : Option (Except Err Values))
    (res : Response) : Option (HttpResult T) × Option Err :=
  let r1 := match enc with
    | some e => query1 r e
    | none => r
  doRespond r1.decoders r1.errorHandlers res

/-- Embeds form.MultipartFormData.AttachTo (src/unnamed/part_000 lines 44-57)
for one attachment. hasCloser is whether the attachment holds a closer (true
for the file-backed attachments form.File builds, lines 28-39); createErr and
copyErr are the outcomes of mw.CreateFormFile and io.Copy. The result is the
number of Close calls performed before AttachTo returns, and the returned
error. A CreateFormFile failure returns before the deferred Close is
registered, so nothing is closed on that path; once CreateFormFile succeeds
the deferred Close runs exactly once whatever io.Copy does. -/
def attachTo000 (hasCloser : Bool) (createErr copyErr : Option Err) :
    Nat × Option Err :=
  match createErr with
  | some e => (0, some e)
  | none => ((if hasCloser then 1 else 0), copyErr)

/-- The response body reader a structured error holds: its remaining data,
whether it has been drained, whether it has been closed, and how many ReadAll
calls have been issued against it (the fetch count the caching claim is
about). -/
structure BodyStream where
  data : Bytes
  consumed : Bool
  closed : Bool
  readCount : Nat
deriving DecidableEq, Repr

/-- Embeds io.ReadAll on the held response body: reading a closed body fails,
reading a drained body yields no bytes, otherwise the data is returned and
the stream drained. Every call counts as one fetch. -/
def readAll (s : BodyStream) : Except Err Bytes × BodyStream :=
  if s.closed then (.error .bodyClosed, { s with readCount := s.readCount + 1 })
  else if s.consumed then (.ok [], { s with consumed := true, readCount := s.readCount + 1 })
  else (.ok s.data, { s with consumed := true, readCount := s.readCount + 1 })

/-- Embeds Error.ResponseBody in the non-caching variant (src/errors.go lines
24-31): every call runs io.ReadAll on the held response body and closes it
via defer; nothing is cached. -/
def responseBodyA (s : BodyStream) : Except Err Bytes × BodyStream :=
  let out := readAll s
  (out.1, { out.2 with closed := true })

/-- The state of the caching Error variant (src/errors.go lines 71-100 and
src/unnamed/part_004 lines 12-41): the held response body and the body cache
field, nil until the first successful fetch. -/
structure ErrState where
  stream : BodyStream
  cache : Option Bytes
deriving DecidableEq, Repr

/-- Embeds Error.ResponseBody in the caching variant (src/errors.go lines
89-100): when the cache field is nil the body is read (and closed via defer)
and a successful read is cached; a read error is returned with nothing
cached; when the cache is set it is returned as-is with no read. -/
def responseBodyC (e : ErrState) : Except Err Bytes × ErrState :=
  match e.cache with
  | some b => (.ok b, e)
  | none =>
    let out := readAll e.stream
    let s1 := { out.2 with closed := true }
    match out.1 with
    | .error err => (.error err, { e with stream := s1 })
    | .ok b => (.ok b, { stream := s1, cache := some b })

/-- Fixture: a decoder registry for Nat whose json decoder always fails. -/
def c1decoders : DecoderRegistry Nat :=
  [("application/json", fun _ => .error (.custom 7))]

/-- Fixture: a 200 response carrying a parameterized json content type. -/
def c1res : Response := ⟨200, "application/json; charset=utf-8", [1, 2, 3]⟩

/-- Fixture: a decoder registry whose json decoder returns the body length. -/
def c1wDecoders : DecoderRegistry Nat :=
  [("application/json", fun b => .ok b.length)]

/-- Fixture: a handler registry whose plain-text handler returns a nil
error. -/
def c2handlers : HandlerRegistry := [("text/plain", fun _ _ => none)]

/-- Fixture: a 404 plain-text response. -/
def c2res : Response := ⟨404, "text/plain", [9]⟩

/-- Fixture: a handler registry whose json handler returns a custom error. -/
def c2wHandlers : HandlerRegistry :=
  [("application/json", fun _ _ => some (.custom 11))]

/-- Fixture: a 500 json response. -/
def c2wRes : Response := ⟨500, "application/json", [4, 5]⟩

/-- Fixture: a builder whose plain-text decoder returns 5. -/
def c4req : Request007 Nat :=
  { newRequestFunc007 Nat with decoders := [("text/plain", fun _ => .ok 5)] }

/-- Fixture: a 200 plain-text response. -/
def c4res : Response := ⟨200, "text/plain", [1]⟩

/-- Fixture: one succeeding attachment before the failing one. -/
def c5pre : List Attachment007 := [⟨1, none⟩]

/-- Fixture: the failing attachment. -/
def c5fail : Attachment007 := ⟨2, some (.custom 9)⟩

/-- Fixture: one attachment after the failing one. -/
def c5post : List Attachment007 := [⟨3, none⟩]

/-- Fixture: a fresh two-byte response body stream. -/
def c8s : BodyStream := ⟨[1, 2], false, false, 0⟩

/-- Fixture: a completed result handle with no decoder registered. -/
def c10r : HttpResult Nat := ⟨⟨200, "", [7]⟩, [7], none⟩

/-- Occurrence count of one (key, value) pair in a pair list. -/
def pairCount (p : String × String) (l : List (String × String)) : Nat :=
  l.countP fun x => decide (x = p)

theorem pairCount_cons (p a : String × String) (l : List (String × String)) :
    pairCount p (a :: l) = pairCount p l + (if a = p then 1 else 0) := by
  simp only [pairCount, List.countP_cons, decide_eq_true_eq]

theorem pairCount_append (p : String × String) (l₁ l₂ : List (String × String)) :
    pairCount p (l₁ ++ l₂) = pairCount p l₁ + pairCount p l₂ := by
  simp only [pairCount, List.countP_append]

theorem entries_cons (k : String) (l : List String) (rest : Values) :
    Values.entries ((k, l) :: rest) =
      (l.map fun v => (k, v)) ++ Values.entries rest := by
  simp [Values.entries]

theorem pairCount_nil (p : String × String) : pairCount p [] = 0 := rfl

theorem add_cons_self (k : String) (l : List String) (tl : Values) (v : String) :
    Values.add ((k, l) :: tl) k v = (k, l ++ [v]) :: tl := by
  conv_lhs => unfold Values.add
  simp

theorem add_cons_ne (k₀ k : String) (l : List String) (tl : Values) (v : String)
    (h : k₀ ≠ k) :
    Values.add ((k₀, l) :: tl) k v = (k₀, l) :: Values.add tl k v := by
  conv_lhs => unfold Values.add
  simp [h]

theorem entries_add_pairCount (vs : Values) (k v : String) (p : String × String) :
    pairCount p (Values.entries (vs.add k v)) =
      pairCount p (Values.entries vs) + (if (k, v) = p then 1 else 0) := by
  induction vs with
  | nil =>
    rw [show Values.add [] k v = [(k, [v])] from rfl,
      show Values.entries [(k, [v])] = [(k, v)] by simp [Values.entries],
      show Values.entries ([] : Values) = [] from rfl, pairCount_cons]
  | cons hd tl ih =>
    obtain ⟨k₀, l⟩ := hd
    by_cases h : k₀ = k
    · subst h
      rw [add_cons_self, entries_cons, entries_cons]
      simp only [List.map_append, List.map_singleton, pairCount_append,
        pairCount_cons, pairCount_nil]
      omega
    · rw [add_cons_ne _ _ _ _ _ h, entries_cons, entries_cons,
        pairCount_append, pairCount_append, ih]
      omega

theorem loadURL_pairCount (q : List (String × String)) (vs : Values)
    (p : String × String) :
    pairCount p (Values.entries (loadURL (some vs) q)) =
      pairCount p (Values.entries vs) + pairCount p q := by
  induction q generalizing vs with
  | nil => simp [loadURL, pairCount]
  | cons a q ih =>
    have hstep : loadURL (some vs) (a :: q) =
        loadURL (some (vs.add a.1 a.2)) q := by
      simp [loadURL]
    rw [hstep, ih, entries_add_pairCount, pairCount_cons,
      show ((a.1, a.2) : String × String) = a from rfl]
    by_cases hp : a = p <;> simp only [hp, if_pos rfl, if_neg] <;> omega

theorem insertSorted_perm (x : String × List String) (l : Values) :
    (insertSorted x l).Perm (x :: l) := by
  induction l with
  | nil => exact List.Perm.refl _
  | cons y ys ih =>
    unfold insertSorted
    by_cases h : x.1 ≤ y.1
    · rw [if_pos h]
    · rw [if_neg h]
      exact (ih.cons y).trans (List.Perm.swap x y ys)

theorem sortByKey_perm (l : Values) : (sortByKey l).Perm l := by
  induction l with
  | nil => exact List.Perm.refl _
  | cons x xs ih => exact (insertSorted_perm x (sortByKey xs)).trans (ih.cons x)

theorem encodePairs_perm (vs : Values) :
    (Values.encodePairs vs).Perm (Values.entries vs) :=
  (sortByKey_perm vs).flatMap_right _

theorem get?_set_self (vs : Values) (k v : String) :
    (vs.set k v).get? k = some [v] := by
  induction vs with
  | nil => simp [Values.set, Values.get?]
  | cons hd tl ih =>
    obtain ⟨k₀, l⟩ := hd
    by_cases h : k₀ = k <;> simp [Values.set, Values.get?, h, ih]

theorem get?_set_ne (vs : Values) (k v k₁ : String) (h : k ≠ k₁) :
    (vs.set k v).get? k₁ = vs.get? k₁ := by
  induction vs with
  | nil => simp [Values.set, Values.get?, h]
  | cons hd tl ih =>
    obtain ⟨k₀, l⟩ := hd
    by_cases h₀ : k₀ = k
    · subst h₀; simp [Values.set, Values.get?, h]
    · simp [Values.set, Values.get?, h₀, ih]

theorem writeAttachments_append_fail (pre : List Attachment007)
    (a : Attachment007) (post : List Attachment007) (e : Err) (st : MPState)
    (hpre : ∀ b ∈ pre, b.fail = none) (ha : a.fail = some e) :
    writeAttachments st (pre ++ a :: post) =
      ({ st with parts := st.parts ++ pre.map Attachment007.id }, some e) := by
  induction pre generalizing st with
  | nil =>
    simp [writeAttachments, ha]
  | cons b pre ih =>
    have hb : b.fail = none := hpre b (by simp)
    rw [List.cons_append, show writeAttachments st (b :: (pre ++ a :: post)) =
          writeAttachments { st with parts := st.parts ++ [b.id] }
            (pre ++ a :: post) by
        simp [writeAttachments, hb]]
    rw [ih _ (fun x hx => hpre x (by simp [hx]))]
    simp

/-- C3 (confirmed): when a request is finalized with query values accumulated
via Query and a target URL carrying its own embedded query pairs, the pairs
build serializes onto the URL (values.Encode over the map loadURL produced)
contain every (key, value) entry of both sources with its full multiplicity:
the count of any pair among the serialized pairs is the sum of its counts in
the two sources, so duplicate keys keep all their values and no value is
dropped. -/
theorem c3_query_merge (vs : Values) (q : List (String × String))
    (p : String × String) :
    pairCount p (buildRawQueryPairs (some vs) q) =
      pairCount p (Values.entries vs) + pairCount p q := by
  unfold buildRawQueryPairs
  rw [show pairCount p (Values.encodePairs (loadURL (some vs) q)) =
        pairCount p (Values.entries (loadURL (some vs) q)) from
      (encodePairs_perm _).countP_eq _]
  exact loadURL_pairCount q vs p

/-- C5 (confirmed): in a multipart POST, if the attachment after the prefix
pre (all of whose writes succeed) fails with error e, TryPostForm returns
exactly e, the multipart writer holds only the parts of pre (nothing after
the failing attachment is written), and the writer is never finalized. -/
theorem c5_attachment_abort (headers : Values) (v : Values)
    (pre post : List Attachment007) (a : Attachment007) (e : Err)
    (hpre : ∀ b ∈ pre, b.fail = none) (ha : a.fail = some e) :
    (tryPostForm007 headers (.ok v) (pre ++ a :: post)).2 = .error e ∧
    (tryPostForm007 headers (.ok v) (pre ++ a :: post)).1.parts =
      pre.map Attachment007.id ∧
    (tryPostForm007 headers (.ok v) (pre ++ a :: post)).1.closed = false := by
  have hne : (pre ++ a :: post).isEmpty = false := by
    cases pre <;> simp [List.isEmpty]
  simp only [tryPostForm007, hne, Bool.false_eq_true, if_false]
  rw [writeAttachments_append_fail pre a post e _ hpre ha]
  simp

/-- C5 witness: with one succeeding attachment, then one failing with
custom 9, then one more, the call returns custom 9, only part 1 is written
and the writer is not closed. -/
theorem c5_attachment_abort_witness :
    (tryPostForm007 [] (.ok [("n", ["x"])]) (c5pre ++ c5fail :: c5post)).2 =
      .error (.custom 9) ∧
    (tryPostForm007 [] (.ok [("n", ["x"])]) (c5pre ++ c5fail :: c5post)).1.parts =
      c5pre.map Attachment007.id ∧
    (tryPostForm007 [] (.ok [("n", ["x"])]) (c5pre ++ c5fail :: c5post)).1.closed =
      false :=
  c5_attachment_abort [] [("n", ["x"])] c5pre c5post c5fail (.custom 9)
    (by decide) rfl

/-- C6 counterexample: for a file-backed attachment (closer held) whose
CreateFormFile call fails, AttachTo returns that error without closing the
file handle at all, so the handle is not released exactly once on this
execution path. -/
theorem c6_counterexample :
    attachTo000 true (some (.custom 4)) none = (0, some (.custom 4)) := rfl

/-- C6 (corrected): for a file-backed attachment, on every execution path on
which CreateFormFile succeeds the held file handle is closed exactly once
before AttachTo returns, whether the copy succeeds or fails, and the copy
error is returned unchanged; when CreateFormFile fails the handle is not
closed. -/
theorem c6_close_once (copyErr : Option Err) :
    (attachTo000 true none copyErr).1 = 1 ∧
    (attachTo000 true none copyErr).2 = copyErr ∧
    (∀ e : Err, (attachTo000 true (some e) copyErr).1 = 0) :=
  ⟨rfl, rfl, fun _ => rfl⟩

/-- C9 (confirmed): a freshly constructed builder has a nil query-values map,
a one-argument Query whose encoder fails leaves it nil, and the key/value
form of Query on a nil values map is a runtime panic (assignment to an entry
of a nil Go map in url.Values.Set). -/
theorem c9_query_panics :
    (newRequestFunc007 Unit).values = none ∧
    (∀ e : Err, (query1 (newRequestFunc007 Unit) (.error e)).values = none) ∧
    (∀ k v : String, querySet (newRequestFunc007 Unit).values k v =
      .error .nilMapAssign) :=
  ⟨rfl, fun _ => rfl, fun _ _ => rfl⟩

/-- C10 (confirmed): resolving a completed result handle with a byte-slice
pointer returns the raw buffered body bytes with a nil error for every
decoder field (registered, unregistered, or failing), any other non-T
pointer yields the unexpected-type sentinel, and the no-decoder sentinel
arises only on the typed-pointer branch, when no decoder is registered. -/
theorem c10_bytes_target {T : Type} (r : HttpResult T) :
    r.as .bytesPtr = .ok (.bytes r.bytes) ∧
    r.as .otherPtr = .error .unexpectedType ∧
    (r.decoder = none → r.as .typedPtr = .error .noAvailableDecoder) := by
  refine ⟨rfl, rfl, fun h => ?_⟩
  simp [HttpResult.as, h]

/-- C10 witness: at the concrete handle with no decoder, the byte-slice
target yields the raw bytes, the foreign target the unexpected-type
sentinel, and the typed target the no-decoder sentinel. -/
theorem c10_bytes_target_witness :
    c10r.as .bytesPtr = .ok (.bytes c10r.bytes) ∧
    c10r.as .otherPtr = .error .unexpectedType ∧
    c10r.as .typedPtr = .error .noAvailableDecoder :=
  ⟨(c10_bytes_target c10r).1, (c10_bytes_target c10r).2.1,
    (c10_bytes_target c10r).2.2 rfl⟩

/-- C4 counterexample: a Get whose params make the parameter encoder fail
with custom 3 does not propagate that error: Query discards it, the dispatch
proceeds, and the verb call returns a successful Result with a nil error. -/
theorem c4_counterexample :
    (tryGet007 c4req (some (.error (.custom 3))) c4res).2 = none ∧
    (tryGet007 c4req (some (.error (.custom 3))) c4res).1.isSome = true :=
  ⟨rfl, rfl⟩

/-- C4 (corrected): a parameter-encoder failure is propagated to the caller
by TryPostForm (and hence Post/PostForm), which aborts with exactly the
encoder's error; the one-argument Query branch instead silently discards the
encoder error and leaves the builder state unchanged, so verbs that encode
params through Query (Get) do not propagate it. -/
theorem c4_encoder_error (e : Err) :
    (∀ (headers : Values) (atts : List Attachment007),
      (tryPostForm007 headers (.error e) atts).2 = .error e) ∧
    (∀ (T : Type) (r : Request007 T), query1 r (.error e) = r) :=
  ⟨fun _ _ => rfl, fun _ _ => rfl⟩

/-- C1 counterexample: a dispatched request with status 200 and a decoder
registered under the response's content-type token for which the resolved
call's returned error is not nil: the registered json decoder fails with
custom 7 and Get returns exactly that non-nil error (with the zero value),
not a decoded value with a nil error. -/
theorem c1_counterexample :
    c1res.statusCode = 200 ∧
    (regGet? c1decoders (contentType c1res.contentTypeHeader)).isSome = true ∧
    getResolve c1decoders [] c1res = .errored (.custom 7) :=
  ⟨rfl, rfl, rfl⟩

/-- C1 (corrected): for a dispatched request whose response has status 200
and whose content-type token has a registered decoder, if that decoder
succeeds on the buffered body bytes then resolving into T returns exactly
the decoder's output with a nil error; a decoder failure is instead
propagated as the returned error. -/
theorem c1_decode_success {T : Type} (decoders : DecoderRegistry T)
    (handlers : HandlerRegistry) (res : Response) (d : DecoderFunc T) (t : T)
    (hreg : regGet? decoders (contentType res.contentTypeHeader) = some d)
    (hst : res.statusCode = 200) (hdec : d res.body = .ok t) :
    getResolve decoders handlers res = .ok t := by
  unfold getResolve doRespond handleResponse
  simp [hst, HttpResult.as, hreg, hdec, Except.map]

/-- C1 witness: with the length decoder registered for the json token and a
three-byte 200 response, resolution returns 3 with a nil error. -/
theorem c1_decode_success_witness :
    getResolve c1wDecoders [] c1res = .ok 3 :=
  c1_decode_success c1wDecoders [] c1res (fun b => .ok b.length) 3 rfl rfl rfl

/-- C2 counterexample: a dispatched request with a non-200 status and an
error handler registered under the response's content-type token whose
returned error is nil: the registered plain-text handler returns a nil
error and the call returns (nil, nil), so the non-nil-error part of the
claim fails. -/
theorem c2_counterexample :
    c2res.statusCode ≠ 200 ∧
    (regGet? c2handlers (contentType c2res.contentTypeHeader)).isSome = true ∧
    (doRespond ([] : DecoderRegistry Nat) c2handlers c2res).2 = none :=
  ⟨by decide, rfl, rfl⟩

/-- C2 (corrected): for a dispatched request whose response status is not
200, the returned error is exactly the output of the error handler
registered under the response's content-type token when one is registered
(hence nil precisely when that handler returns nil), and when none is
registered it is the default handler's output, a structured error carrying
the status and raw body, which is always non-nil. -/
theorem c2_error_dispatch {T : Type} (decoders : DecoderRegistry T)
    (handlers : HandlerRegistry) (res : Response)
    (hst : res.statusCode ≠ 200) :
    (∀ (h : ErrorHandlerFunc) (e : Err),
      regGet? handlers (contentType res.contentTypeHeader) = some h →
      h res res.body = some e →
      getResolve decoders handlers res = .errored e) ∧
    (regGet? handlers (contentType res.contentTypeHeader) = none →
      getResolve decoders handlers res =
        .errored (.structured res.statusCode res.body)) := by
  constructor
  · intro h e hreg hout
    unfold getResolve doRespond handleErrorResponse
    simp [hst, hreg, hout]
  · intro hnone
    unfold getResolve doRespond handleErrorResponse newError
    simp [hst, hnone]

/-- C2 witness: a 500 json response with a registered json handler returns
that handler's custom 11 error, and with an empty handler registry it
returns the default structured error carrying status 500 and the raw
body. -/
theorem c2_error_dispatch_witness :
    getResolve ([] : DecoderRegistry Nat) c2wHandlers c2wRes =
      .errored (.custom 11) ∧
    getResolve ([] : DecoderRegistry Nat) [] c2wRes =
      .errored (.structured c2wRes.statusCode c2wRes.body) :=
  ⟨(c2_error_dispatch [] c2wHandlers c2wRes (by decide)).1
      (fun _ _ => some (.custom 11)) (.custom 11) rfl rfl,
    (c2_error_dispatch ([] : DecoderRegistry Nat) [] c2wRes (by decide)).2 rfl⟩

/-- C7 (confirmed): for every POST with params and no attachments — through
the part_007 TryPostForm variant and the part_006 Post variant alike (the
src/request.go requestImpl.Post behaves like the latter) — the finalized
request carries content-type application/x-www-form-urlencoded, a body equal
to the url-encoded form of the encoded parameters, and a wire Content-Length
equal to the byte length of that encoded form string:
http.NewRequestWithContext sets req.ContentLength from the *strings.Reader
body and the transport emits the Content-Length header from that field. -/
theorem c7_wire_content_length (headers0 : Values) (v : Values) :
    ((tryPostForm007 headers0 (.ok v) []).2.map fun b =>
        (b.headers.get? "Content-Type", b.body, strBodyWireContentLength b)) =
      .ok (some ["application/x-www-form-urlencoded"],
        some (.str (Values.encodeString v)),
        some (Values.encodeString v).utf8ByteSize) ∧
    ((post006NoAttach headers0 (.ok v)).map fun b =>
        (b.headers.get? "Content-Type", b.body, strBodyWireContentLength b)) =
      .ok (some ["application/x-www-form-urlencoded"],
        some (.str (Values.encodeString v)),
        some (Values.encodeString v).utf8ByteSize) := by
  constructor
  · have h1 : ((tryPostForm007 headers0 (.ok v) []).2.map fun b =>
        (b.headers.get? "Content-Type", b.body, strBodyWireContentLength b)) =
      .ok ((((headers0.set "Cache-Control" "no-cache").set
          "Content-Type" "application/x-www-form-urlencoded").get?
            "Content-Type"),
        some (Body.str (Values.encodeString v)),
        some (Values.encodeString v).utf8ByteSize) := rfl
    rw [h1, get?_set_self]
  · have h2 : ((post006NoAttach headers0 (.ok v)).map fun b =>
        (b.headers.get? "Content-Type", b.body, strBodyWireContentLength b)) =
      .ok (((((headers0.set "Content-Length"
          (toString (Values.encodeString v).utf8ByteSize)).set
            "Cache-Control" "no-cache").set
            "Content-Type" "application/x-www-form-urlencoded").get?
            "Content-Type"),
        some (Body.str (Values.encodeString v)),
        some (Values.encodeString v).utf8ByteSize) := rfl
    rw [h2, get?_set_self]

/-- C8 counterexample: in the non-caching ResponseBody variant (src/errors.go
lines 24-31) the body is not fetched at most once: the first call on a fresh
two-byte stream returns the bytes and closes the body, and a second call
issues another read against the response body (the read count rises to 2)
and fails on the closed body instead of returning the cached bytes. -/
theorem c8_counterexample :
    (responseBodyA c8s).1 = .ok [1, 2] ∧
    (responseBodyA (responseBodyA c8s).2).1 = .error .bodyClosed ∧
    (responseBodyA (responseBodyA c8s).2).2.readCount = 2 :=
  ⟨rfl, rfl, rfl⟩

/-- C8 (corrected): the caching ResponseBody variant (src/errors.go lines
89-100) fetches the body at most once: on a structured error with an empty
cache and a fresh response body, the first call reads the stream once
(raising its read count by one), returns the bytes and caches them, and on
the resulting state every later call returns the same cached bytes with the
state unchanged, issuing no further read; the non-caching variant (lines
24-31) re-reads the closed body on every call instead. -/
theorem c8_cached_body (d : Bytes) (rc : Nat) :
    (responseBodyC ⟨⟨d, false, false, rc⟩, none⟩).1 = .ok d ∧
    (responseBodyC ⟨⟨d, false, false, rc⟩, none⟩).2 =
      ⟨⟨d, true, true, rc + 1⟩, some d⟩ ∧
    responseBodyC ⟨⟨d, true, true, rc + 1⟩, some d⟩ =
      (.ok d, ⟨⟨d, true, true, rc + 1⟩, some d⟩) :=
  ⟨rfl, rfl, rfl⟩
